import Mathlib

/-!
Shallow embedding of `volumeRPC.js`, the client-side streaming cache of the
time-series volume visualizer
(`tvb/interfaces/web/templates/genshi/visualizers/time_series_volume/scripts/volumeRPC.js`).

The mutable module object `tsRPC` becomes the structure `TsRPC`; every JS
function becomes a pure state transformer on it.  External collaborators are
oracles passed as arguments: the blocking fetch+decode `HLPR_readJSONfromFile`
is a function `String → Segment`, the position provider
`getCurrentEntityAndTime` is passed as the `(tp, v)` arguments of the timer
callbacks.  An asynchronous `doAjaxCall` is split into the issuing step (which
returns the captured `Fetch` record: URL, section, captured `batchID`) and two
completion events, `completeSuccess` (the success continuation together with
the `parseAsync` callback it schedules, i.e. the synchronous-fallback decode
path) and `completeError` (the error continuation; it returns the messages
sent to `displayMessage`).  JS numbers that are always integers are `ℕ`/`ℤ`;
`bufferL2Size`, which the code divides by 2 with float semantics, is `ℚ`, and
the float arithmetic of `freeBuffer` (including the sign-of-dividend `%`
of JavaScript) is modelled exactly over `ℚ` by `jsRem`.
-/

namespace VolumeRPC

/-- A decoded 2-D cross-section plane (numeric samples). -/
abbrev Plane := List (List ℤ)

/-- A decoded response payload: `buffer[axis][localTime]` is a `Plane`,
for the three axes `0, 1, 2`. -/
abbrev Segment := List (List Plane)

/-- A selected voxel `[x, y, z]`. -/
abbrev Voxel := ℤ × ℤ × ℤ

/-- The value the view accessors return: the three-element array
`[planeX, planeY, planeZ]`.  A JS array access out of range yields
`undefined`, hence `Option`. -/
structure Triple where
  px : Option Plane
  py : Option Plane
  pz : Option Plane
deriving DecidableEq

/-- An asynchronous request as issued by `asyncRequest`: the target URL, the
section index `sect`, and the `privateID` captured from `tsRPC.batchID` when
the request was issued. -/
structure Fetch where
  url : String
  sect : ℕ
  privateID : ℕ
deriving DecidableEq

/-- The `tsRPC` module state.  `streamToBufferID` is whether the
`setInterval` handle is set (JS: `null` vs. a non-zero timer id). -/
structure TsRPC where
  timeLength : ℕ
  bufferSize : ℕ
  bufferL2Size : ℚ
  lookAhead : ℕ
  bufferL2 : List (ℕ × Segment)
  urlVolumeData : String
  urlBackgroundVolumeData : String
  backgroundL2 : List (String × Triple)
  requestQueue : List ℕ
  batchID : ℕ
  streamToBufferID : Bool
deriving DecidableEq

/-- JS object property update `obj[k] = v`: replace the binding in place if
the key is present, append it otherwise. -/
def jsSet {β : Type} : List (ℕ × β) → ℕ → β → List (ℕ × β)
  | [], k, v => [(k, v)]
  | (k', v') :: rest, k, v =>
      if k' = k then (k, v) :: rest else (k', v') :: jsSet rest k v

/-- Truncation toward zero, as JavaScript division-plus-`Math.trunc` and the
built-in `%` operator use. -/
def jsTrunc (q : ℚ) : ℤ := if q < 0 then ⌈q⌉ else ⌊q⌋

/-- The JavaScript `%` operator on numbers: remainder with the sign of the
dividend, `a - b * trunc (a / b)`. -/
def jsRem (a b : ℚ) : ℚ := a - b * (jsTrunc (a / b) : ℚ)

/-- `voxelToUrlFragment(selectedEntity)`. -/
def voxelToUrlFragment (selectedEntity : Voxel) : String :=
  let xPlane := ";x_plane=" ++ toString selectedEntity.1
  let yPlane := ";y_plane=" ++ toString selectedEntity.2.1
  let zPlane := ";z_plane=" ++ toString selectedEntity.2.2
  xPlane ++ yPlane ++ zPlane

/-- `buildRequestUrl(urlVolumeData, from, to, selectedEntity)`. -/
def buildRequestUrl (urlVolumeData : String) (fromIdx toIdx : ℤ)
    (selectedEntity : Voxel) : String :=
  let spacialFragment := voxelToUrlFragment selectedEntity
  urlVolumeData ++ "from_idx=" ++ toString fromIdx ++ ";to_idx=" ++ toString toIdx
    ++ spacialFragment

/-- `asyncRequest(fileName, sect)`: if `sect` is not yet in the request queue,
push it and issue the ajax call (returned as the issued `Fetch`, carrying the
captured `privateID = batchID`); otherwise do nothing. -/
def asyncRequest (fileName : String) (sect : ℕ) (s : TsRPC) :
    TsRPC × Option Fetch :=
  if s.requestQueue.contains sect then (s, none)
  else ({ s with requestQueue := s.requestQueue ++ [sect] },
        some ⟨fileName, sect, s.batchID⟩)

/-- The success continuation of the ajax call issued by `asyncRequest`,
together with the `parseAsync` callback it schedules (the decode step run to
completion, as on the synchronous-fallback parse path): if the captured
`privateID` still equals the live `batchID`, store the parsed payload under
`sect` and splice `sect` out of the request queue; otherwise do nothing. -/
def completeSuccess (f : Fetch) (json : Segment) (s : TsRPC) : TsRPC :=
  if f.privateID = s.batchID then
    { s with
      bufferL2 := jsSet s.bufferL2 f.sect json,
      requestQueue := s.requestQueue.erase f.sect }
  else s

/-- The error continuation of the ajax call issued by `asyncRequest`: it only
calls `displayMessage("Could not retrieve data from the server!",
"warningMessage")`; the state is untouched.  The emitted warning texts are
returned alongside the state. -/
def completeError (_f : Fetch) (s : TsRPC) : TsRPC × List String :=
  (s, ["Could not retrieve data from the server!"])

/-- The candidate sections one `streamToBuffer` tick scans:
`Math.min(currentSection + i, maxSections)` for `i` running from `0` while
`i <= lookAhead && i < maxSections`, where
`currentSection = Math.ceil(tp / bufferSize)` and
`maxSections = Math.floor(timeLength / bufferSize)` (ceiling and floor of the
float divisions, expressed with natural division for `bufferSize ≥ 1`). -/
def schedulerCandidates (s : TsRPC) (tp : ℕ) : List ℕ :=
  let currentSection := (tp + s.bufferSize - 1) / s.bufferSize
  let maxSections := s.timeLength / s.bufferSize
  ((List.range (s.lookAhead + 1)).filter (fun i => decide (i < maxSections))).map
    (fun i => min (currentSection + i) maxSections)

/-- The per-candidate test of `streamToBuffer`:
`!tsRPC.bufferL2[toBufferSection] && requestQueue.indexOf(toBufferSection) < 0`
(not resident in the segment cache and not already in flight). -/
def isNewSection (s : TsRPC) (toBufferSection : ℕ) : Bool :=
  (List.lookup toBufferSection s.bufferL2).isNone
    && !(s.requestQueue.contains toBufferSection)

/-- `streamToBuffer()`, one tick of the prefetch scheduler.  The position
provider callback is the arguments `tp` (current time point) and `v`
(selected entity).  Returns the updated state and the fetch issued this tick,
if any: the early-`return` loop over the candidates is their first element
passing `isNewSection`. -/
def streamToBuffer (s : TsRPC) (tp : ℕ) (v : Voxel) : TsRPC × Option Fetch :=
  if s.requestQueue.length < 2 then
    match (schedulerCandidates s tp).find? (isNewSection s) with
    | some toBufferSection =>
        let fromIdx := toBufferSection * s.bufferSize
        let toIdx := min (fromIdx + s.bufferSize) s.timeLength
        asyncRequest
          (buildRequestUrl s.urlVolumeData (fromIdx : ℤ) (toIdx : ℤ) v)
          toBufferSection s
    | none => (s, none)
  else (s, none)

/-- `freeBuffer()`, one run of the eviction sweeper.  `sec` is
`Math.floor(currentTimePoint / bufferSize)`; `Object.keys(bufferL2).length`
is the number of distinct keys; the `for (var idx in bufferL2)` comparisons
coerce the string key to a number and compare against the float window bounds,
modelled exactly over `ℚ` with the JavaScript remainder `jsRem`. -/
def freeBuffer (s : TsRPC) (tp : ℕ) : TsRPC :=
  let sec := tp / s.bufferSize
  let bufferedElements := (s.bufferL2.map Prod.fst).dedup.length
  if (bufferedElements : ℚ) > s.bufferL2Size then
    let lo := jsRem ((sec : ℚ) - s.bufferL2Size / 2) (s.timeLength : ℚ)
    let hi := jsRem ((sec : ℚ) + s.bufferL2Size / 2) (s.timeLength : ℚ)
    { s with
      bufferL2 := s.bufferL2.filter
        (fun kv => !(decide ((kv.1 : ℚ) < lo) || decide ((kv.1 : ℚ) > hi))) }
  else s

/-- `_getViewAtTimeNoCache(t, selectedEntity, urlVolumeData)`: a blocking
fetch (`HLPR_readJSONfromFile`, the oracle `g`) of the single time point `t`,
returning `[buffer[0][0], buffer[1][0], buffer[2][0]]` without touching the
state.  The list of URLs fetched is returned for inspection. -/
def _getViewAtTimeNoCache (t : ℕ) (selectedEntity : Voxel)
    (urlVolumeData : String) (s : TsRPC) (g : String → Segment) :
    Triple × List String :=
  let fromIdx := t
  let toIdx := min (1 + t) s.timeLength
  let query := buildRequestUrl urlVolumeData (fromIdx : ℤ) (toIdx : ℤ) selectedEntity
  let buffer := g query
  (⟨buffer[0]? >>= fun p => p[0]?,
    buffer[1]? >>= fun p => p[0]?,
    buffer[2]? >>= fun p => p[0]?⟩, [query])

/-- `TSRPC_getViewAtTime(t, selectedEntity)`: serve from the segment cache
when section `⌊t / bufferSize⌋` is resident (the cache key is time only),
else fall back to the blocking single-point fetch.  Returns the (unchanged)
state, the triple, and the blocking-fetch URLs issued. -/
def TSRPC_getViewAtTime (s : TsRPC) (t : ℕ) (selectedEntity : Voxel)
    (g : String → Segment) : TsRPC × Triple × List String :=
  let sec := t / s.bufferSize
  match List.lookup sec s.bufferL2 with
  | some buffer =>
      let t' := t % s.bufferSize
      (s, ⟨buffer[0]? >>= fun p => p[t']?,
           buffer[1]? >>= fun p => p[t']?,
           buffer[2]? >>= fun p => p[t']?⟩, [])
  | none =>
      let r := _getViewAtTimeNoCache t selectedEntity s.urlVolumeData s g
      (s, r.1, r.2)

/-- The JS string coercion `selectedEntity + ""` of a 3-element array:
`"x,y,z"`. -/
def voxKey (v : Voxel) : String :=
  toString v.1 ++ "," ++ toString v.2.1 ++ "," ++ toString v.2.2

/-- `TSRPC_getBackgroundView(selectedEntity)`: single-entry cache keyed by the
stringified voxel; a miss fetches time point 0 from the background URL and
replaces the whole cache with the one new entry. -/
def TSRPC_getBackgroundView (s : TsRPC) (selectedEntity : Voxel)
    (g : String → Segment) : TsRPC × Triple × List String :=
  let key := voxKey selectedEntity
  match List.lookup key s.backgroundL2 with
  | some ret => (s, ret, [])
  | none =>
      let r := _getViewAtTimeNoCache 0 selectedEntity s.urlBackgroundVolumeData s g
      ({ s with backgroundL2 := [(key, r.1)] }, r.1, r.2)

/-- `TSRPC_startBuffering()`: a no-op unless not already running and
`bufferSize > 1`; otherwise increment the batch id, clear the request queue
and the segment cache, and register the interval. -/
def TSRPC_startBuffering (s : TsRPC) : TsRPC :=
  if s.streamToBufferID = false ∧ 1 < s.bufferSize then
    { s with
      batchID := s.batchID + 1,
      requestQueue := [],
      bufferL2 := [],
      streamToBufferID := true }
  else s

/-- `TSRPC_stopBuffering()`: clear the interval. -/
def TSRPC_stopBuffering (s : TsRPC) : TsRPC :=
  { s with streamToBufferID := false }

/-- `Math.max(entitySize[0], entitySize[1], entitySize[2])` squared, the
`tpSize` of `_setupBuffersSize`. -/
def tpSizeOf (e0 e1 e2 : ℕ) : ℕ :=
  let m := max e0 (max e1 e2)
  m * m

/-- The first loop of `_setupBuffersSize`:
`while (bufferSize * tpSize <= 50000) bufferSize++`.  Translated with fuel;
starting from `bufferSize = 1` with `tpSize ≥ 1` the loop body runs at most
50000 times, so fuel `50001` never runs out on the states the code reaches
(with `tpSize = 0` the JS loop would not terminate at all). -/
def growBufferSize : ℕ → ℕ → ℕ → ℕ
  | 0, _, bufferSize => bufferSize
  | fuel + 1, tpSize, bufferSize =>
      if bufferSize * tpSize ≤ 50000 then growBufferSize fuel tpSize (bufferSize + 1)
      else bufferSize

/-- The second loop of `_setupBuffersSize`:
`while (bufferSize * tpSize * bufferL2Size <= 157286400) bufferL2Size *= 2`.
Translated with fuel; with `bufferSize * tpSize ≥ 1` the value doubles past
the bound within 28 iterations, so fuel `40` never runs out. -/
def growL2 : ℕ → ℕ → ℕ → ℕ
  | 0, _, bufferL2Size => bufferL2Size
  | fuel + 1, btp, bufferL2Size =>
      if btp * bufferL2Size ≤ 157286400 then growL2 fuel btp (bufferL2Size * 2)
      else bufferL2Size

/-- `_setupBuffersSize(entitySize)` on the initial literal values
`bufferSize = 1`, `bufferL2Size = 1`: returns the final
`(bufferSize, bufferL2Size)`.  The trailing `bufferL2Size /= 2` is JS float
division, hence the second component is `ℚ`. -/
def _setupBuffersSize (e0 e1 e2 : ℕ) : ℕ × ℚ :=
  let tpSize := tpSizeOf e0 e1 e2
  let bufferSize := growBufferSize 50001 tpSize 1
  let bufferL2Size := growL2 40 (bufferSize * tpSize) 1
  (bufferSize, (bufferL2Size : ℚ) / 2)

/-- `TSRPC_initStreaming` restricted to the state it builds: the literal
initial values of `tsRPC`, the fields set by `TSRPC_initNonStreaming`
(`timeLength = entitySize[3]`), and the sizes from `_setupBuffersSize`. -/
def TSRPC_initStreaming (urlVolumeData urlBackgroundVolumeData : String)
    (e0 e1 e2 e3 : ℕ) : TsRPC :=
  let sizes := _setupBuffersSize e0 e1 e2
  { timeLength := e3,
    bufferSize := sizes.1,
    bufferL2Size := sizes.2,
    lookAhead := 10,
    bufferL2 := [],
    urlVolumeData := urlVolumeData,
    urlBackgroundVolumeData := urlBackgroundVolumeData,
    backgroundL2 := [],
    requestQueue := [],
    batchID := 0,
    streamToBufferID := false }

/-- The events that can fire after initialization, as a step relation on the
module state: a scheduler tick (with the position provider's answer as
parameters), a completion of some ajax request (success with some decoded
payload, or transport error), the two buffering controls, an eviction sweep,
and the two view accessors (with the blocking-fetch oracle as parameter). -/
inductive Step : TsRPC → TsRPC → Prop
  | tick (s : TsRPC) (tp : ℕ) (v : Voxel) : Step s (streamToBuffer s tp v).1
  | success (s : TsRPC) (f : Fetch) (json : Segment) :
      Step s (completeSuccess f json s)
  | error (s : TsRPC) (f : Fetch) : Step s (completeError f s).1
  | start (s : TsRPC) : Step s (TSRPC_startBuffering s)
  | stop (s : TsRPC) : Step s (TSRPC_stopBuffering s)
  | free (s : TsRPC) (tp : ℕ) : Step s (freeBuffer s tp)
  | view (s : TsRPC) (t : ℕ) (v : Voxel) (g : String → Segment) :
      Step s (TSRPC_getViewAtTime s t v g).1
  | background (s : TsRPC) (v : Voxel) (g : String → Segment) :
      Step s (TSRPC_getBackgroundView s v g).1

/-! Concrete instances used by the witnesses below. -/

/-- A sample voxel selection. -/
def exVoxel : Voxel := (1, 2, 3)

/-- A sample decoded payload: three axes with one plane each. -/
def exSegment : Segment := [[[[10]]], [[[20]]], [[[30]]]]

/-- A sample cached view triple. -/
def exTriple : Triple := ⟨some [[10]], some [[20]], some [[30]]⟩

/-- A sample blocking-fetch oracle. -/
def exOracle : String → Segment := fun _ => exSegment

/-- A sample streaming state: `bufferSize = 5`, `timeLength = 20`, empty
caches and queue, buffering running under batch 1. -/
def exState : TsRPC :=
  { timeLength := 20
    bufferSize := 5
    bufferL2Size := 2
    lookAhead := 10
    bufferL2 := []
    urlVolumeData := ""
    urlBackgroundVolumeData := "bg/"
    backgroundL2 := []
    requestQueue := []
    batchID := 1
    streamToBufferID := true }

/-- `exState` after the batch id advanced to 2 while section 3 is in flight. -/
def exStateQ3 : TsRPC := { exState with requestQueue := [3], batchID := 2 }

/-- `exState`, not yet buffering, with a background view cached for
`exVoxel`. -/
def exStateBG : TsRPC :=
  { exState with
    backgroundL2 := [(voxKey exVoxel, exTriple)]
    streamToBufferID := false }

/-- Claim C8: for every base URL, integer indices and voxel triple, the
request URL equals `baseUrl ++ "from_idx=" ++ from ++ ";to_idx=" ++ to ++
";x_plane=" ++ vx ++ ";y_plane=" ++ vy ++ ";z_plane=" ++ vz`, character for
character; `buildRequestUrl` is a pure function of these arguments. -/
theorem buildRequestUrl_spec (urlVolumeData : String) (fromIdx toIdx : ℤ)
    (vx vy vz : ℤ) :
    buildRequestUrl urlVolumeData fromIdx toIdx (vx, vy, vz) =
      urlVolumeData ++ "from_idx=" ++ toString fromIdx ++ ";to_idx="
        ++ toString toIdx ++ ";x_plane=" ++ toString vx ++ ";y_plane="
        ++ toString vy ++ ";z_plane=" ++ toString vz := by
  simp [buildRequestUrl, voxelToUrlFragment, String.append_assoc]

/-- Claim C1: handling a prefetch response whose captured batch id differs
from the live batch id leaves the segment cache `bufferL2` exactly unchanged:
no key is added, removed or overwritten. -/
theorem stale_response_preserves_bufferL2 (s : TsRPC) (f : Fetch)
    (json : Segment) (h : f.privateID ≠ s.batchID) :
    (completeSuccess f json s).bufferL2 = s.bufferL2 := by
  simp [completeSuccess, h]

/-- Witness for C1: a concrete stale response (captured batch 0, live batch 1)
leaves the cache untouched. -/
theorem stale_response_preserves_bufferL2_witness :
    (⟨"u", 3, 0⟩ : Fetch).privateID ≠ exState.batchID ∧
    (completeSuccess ⟨"u", 3, 0⟩ exSegment exState).bufferL2 = exState.bufferL2 :=
  ⟨by decide, stale_response_preserves_bufferL2 exState ⟨"u", 3, 0⟩ exSegment (by decide)⟩

/-- Counterexample to C6 as stated: with live batch 2 and section 3 in
flight, a stale response (captured batch 1) for section 3 does not remove 3
from the request queue — the splice only runs on the fresh-batch branch. -/
theorem stale_cleanup_counterexample :
    (⟨"u", 3, 1⟩ : Fetch).privateID ≠ exStateQ3.batchID ∧
    (⟨"u", 3, 1⟩ : Fetch).sect ∈ exStateQ3.requestQueue ∧
    (⟨"u", 3, 1⟩ : Fetch).sect ∈
      (completeSuccess ⟨"u", 3, 1⟩ exSegment exStateQ3).requestQueue := by
  refine ⟨by decide, by decide, by decide⟩

/-- Amended C6: handling a stale response leaves the whole state — in
particular the in-flight request queue — exactly unchanged; no index from the
superseded batch can linger in the live queue because the `startBuffering`
call that advanced the batch id already reset the queue to `[]`. -/
theorem stale_response_state_unchanged (s : TsRPC) (f : Fetch) (json : Segment)
    (h : f.privateID ≠ s.batchID) :
    completeSuccess f json s = s ∧
    (s.streamToBufferID = false → 1 < s.bufferSize →
      (TSRPC_startBuffering s).requestQueue = []) := by
  constructor
  · simp [completeSuccess, h]
  · intro h1 h2
    simp [TSRPC_startBuffering, h1, h2]

/-- Witness for amended C6 at the concrete stale response of the
counterexample. -/
theorem stale_response_state_unchanged_witness :
    completeSuccess ⟨"u", 3, 1⟩ exSegment exStateQ3 = exStateQ3 ∧
    (exStateQ3.streamToBufferID = false → 1 < exStateQ3.bufferSize →
      (TSRPC_startBuffering exStateQ3).requestQueue = []) :=
  stale_response_state_unchanged exStateQ3 ⟨"u", 3, 1⟩ exSegment (by decide)

/-- Claim C7, evaluated at the failing input: a transport error for the
in-flight fetch of section 3 (captured batch 2, still live) emits the warning
but leaves 3 in the request queue — the error continuation performs no
splice, contradicting the claimed release of the in-flight entry. -/
theorem transport_error_keeps_queue_entry :
    (completeError ⟨"u", 3, 2⟩ exStateQ3).2 =
      ["Could not retrieve data from the server!"] ∧
    (completeError ⟨"u", 3, 2⟩ exStateQ3).1.requestQueue = [3] ∧
    (⟨"u", 3, 2⟩ : Fetch).sect ∈
      (completeError ⟨"u", 3, 2⟩ exStateQ3).1.requestQueue := by
  refine ⟨by decide, by decide, by decide⟩

/-- Claim C4: when section `⌊t / bufferSize⌋` is not resident,
`TSRPC_getViewAtTime` issues exactly one blocking fetch, for the range
`from = t` to `min (t+1) timeLength`, returns the decoded triple directly,
and leaves the state (in particular the segment cache) exactly as it was. -/
theorem getViewAtTime_miss_spec (s : TsRPC) (t : ℕ) (v : Voxel)
    (g : String → Segment)
    (h : List.lookup (t / s.bufferSize) s.bufferL2 = none) :
    TSRPC_getViewAtTime s t v g =
      (s,
       ⟨(g (buildRequestUrl s.urlVolumeData (t : ℤ)
            ((min (1 + t) s.timeLength : ℕ) : ℤ) v))[0]? >>= fun p => p[0]?,
        (g (buildRequestUrl s.urlVolumeData (t : ℤ)
            ((min (1 + t) s.timeLength : ℕ) : ℤ) v))[1]? >>= fun p => p[0]?,
        (g (buildRequestUrl s.urlVolumeData (t : ℤ)
            ((min (1 + t) s.timeLength : ℕ) : ℤ) v))[2]? >>= fun p => p[0]?⟩,
       [buildRequestUrl s.urlVolumeData (t : ℤ)
          ((min (1 + t) s.timeLength : ℕ) : ℤ) v]) := by
  simp [TSRPC_getViewAtTime, _getViewAtTimeNoCache, h]

/-- Witness for C4: the spec scenario `bufferSize = 5, timeLength = 20`,
`getViewAtTime 7` on an empty cache. -/
theorem getViewAtTime_miss_spec_witness :
    TSRPC_getViewAtTime exState 7 exVoxel exOracle =
      (exState,
       ⟨(exOracle (buildRequestUrl exState.urlVolumeData (7 : ℤ)
            ((min 8 exState.timeLength : ℕ) : ℤ) exVoxel))[0]? >>= fun p => p[0]?,
        (exOracle (buildRequestUrl exState.urlVolumeData (7 : ℤ)
            ((min 8 exState.timeLength : ℕ) : ℤ) exVoxel))[1]? >>= fun p => p[0]?,
        (exOracle (buildRequestUrl exState.urlVolumeData (7 : ℤ)
            ((min 8 exState.timeLength : ℕ) : ℤ) exVoxel))[2]? >>= fun p => p[0]?⟩,
       [buildRequestUrl exState.urlVolumeData (7 : ℤ)
          ((min 8 exState.timeLength : ℕ) : ℤ) exVoxel]) :=
  getViewAtTime_miss_spec exState 7 exVoxel exOracle (by decide)

/-- Claim C10: `TSRPC_startBuffering` leaves the background cache
`backgroundL2` unchanged, and a later `TSRPC_getBackgroundView` for a voxel
already cached returns the old triple with no fetch and no state change. -/
theorem startBuffering_preserves_background (s : TsRPC) (v : Voxel)
    (g : String → Segment) (tr : Triple)
    (h : List.lookup (voxKey v) s.backgroundL2 = some tr) :
    (TSRPC_startBuffering s).backgroundL2 = s.backgroundL2 ∧
    TSRPC_getBackgroundView (TSRPC_startBuffering s) v g =
      (TSRPC_startBuffering s, tr, []) := by
  have hbg : (TSRPC_startBuffering s).backgroundL2 = s.backgroundL2 := by
    unfold TSRPC_startBuffering
    split <;> rfl
  refine ⟨hbg, ?_⟩
  simp [TSRPC_getBackgroundView, hbg, h]

/-- Witness for C10: restarting buffering on `exStateBG` (a real restart:
idle and `bufferSize > 1`) keeps the cached background view for `exVoxel`. -/
theorem startBuffering_preserves_background_witness :
    (TSRPC_startBuffering exStateBG).backgroundL2 = exStateBG.backgroundL2 ∧
    TSRPC_getBackgroundView (TSRPC_startBuffering exStateBG) exVoxel exOracle =
      (TSRPC_startBuffering exStateBG, exTriple, []) :=
  startBuffering_preserves_background exStateBG exVoxel exOracle exTriple (by decide)

/-! Structural lemmas about the individual operations, shared by the
invariant proofs below. -/

lemma asyncRequest_fst_eq (fn : String) (sect : ℕ) (s : TsRPC) :
    (asyncRequest fn sect s).1 = s ∨
    (asyncRequest fn sect s).1 = { s with requestQueue := s.requestQueue ++ [sect] } := by
  unfold asyncRequest
  split
  · exact Or.inl rfl
  · exact Or.inr rfl

lemma streamToBuffer_fst_cases (s : TsRPC) (tp : ℕ) (v : Voxel) :
    (streamToBuffer s tp v).1 = s ∨
    (s.requestQueue.length < 2 ∧ ∃ sect : ℕ,
      (streamToBuffer s tp v).1 = { s with requestQueue := s.requestQueue ++ [sect] }) := by
  unfold streamToBuffer
  by_cases hlt : s.requestQueue.length < 2
  · rw [if_pos hlt]
    cases hfind : (schedulerCandidates s tp).find? (isNewSection s) with
    | none => exact Or.inl rfl
    | some tb =>
        rcases asyncRequest_fst_eq
            (buildRequestUrl s.urlVolumeData (tb * s.bufferSize : ℕ)
              ((min (tb * s.bufferSize + s.bufferSize) s.timeLength : ℕ)) v) tb s with h | h
        · exact Or.inl h
        · exact Or.inr ⟨hlt, tb, h⟩
  · rw [if_neg hlt]
    exact Or.inl rfl

lemma completeSuccess_fst_cases (f : Fetch) (json : Segment) (s : TsRPC) :
    completeSuccess f json s = s ∨
    completeSuccess f json s =
      { s with
        bufferL2 := jsSet s.bufferL2 f.sect json,
        requestQueue := s.requestQueue.erase f.sect } := by
  unfold completeSuccess
  split
  · exact Or.inr rfl
  · exact Or.inl rfl

lemma startBuffering_fst_cases (s : TsRPC) :
    TSRPC_startBuffering s = s ∨
    TSRPC_startBuffering s =
      { s with
        batchID := s.batchID + 1,
        requestQueue := [],
        bufferL2 := [],
        streamToBufferID := true } := by
  unfold TSRPC_startBuffering
  split
  · exact Or.inr rfl
  · exact Or.inl rfl

lemma freeBuffer_requestQueue (s : TsRPC) (tp : ℕ) :
    (freeBuffer s tp).requestQueue = s.requestQueue ∧
    (freeBuffer s tp).bufferSize = s.bufferSize ∧
    (freeBuffer s tp).bufferL2Size = s.bufferL2Size := by
  unfold freeBuffer
  dsimp only
  split <;> exact ⟨rfl, rfl, rfl⟩

lemma getViewAtTime_fst (s : TsRPC) (t : ℕ) (v : Voxel) (g : String → Segment) :
    (TSRPC_getViewAtTime s t v g).1 = s := by
  unfold TSRPC_getViewAtTime
  dsimp only
  split <;> rfl

lemma getBackgroundView_fst_fields (s : TsRPC) (v : Voxel) (g : String → Segment) :
    (TSRPC_getBackgroundView s v g).1.requestQueue = s.requestQueue ∧
    (TSRPC_getBackgroundView s v g).1.bufferSize = s.bufferSize ∧
    (TSRPC_getBackgroundView s v g).1.bufferL2Size = s.bufferL2Size := by
  unfold TSRPC_getBackgroundView
  dsimp only
  split <;> exact ⟨rfl, rfl, rfl⟩

lemma step_requestQueue_le (s s' : TsRPC) (h : Step s s')
    (hs : s.requestQueue.length ≤ 2) : s'.requestQueue.length ≤ 2 := by
  cases h with
  | tick tp v =>
      rcases streamToBuffer_fst_cases s tp v with h | ⟨hlt, sect, h⟩
      · rw [h]; exact hs
      · rw [h]
        simp only [List.length_append, List.length_cons, List.length_nil]
        omega
  | success f json =>
      rcases completeSuccess_fst_cases f json s with h | h
      · rw [h]; exact hs
      · rw [h]
        exact le_trans (List.erase_sublist f.sect s.requestQueue).length_le hs
  | error f => exact hs
  | start =>
      rcases startBuffering_fst_cases s with h | h
      · rw [h]; exact hs
      · rw [h]; simp
  | stop => exact hs
  | free tp => rw [(freeBuffer_requestQueue s tp).1]; exact hs
  | view t v g => rw [getViewAtTime_fst s t v g]; exact hs
  | background v g => rw [(getBackgroundView_fst_fields s v g).1]; exact hs

/-- Claim C2: a tick issues a fetch only when the in-flight request queue has
fewer than 2 entries (and at most one fetch per tick, by the shape of
`streamToBuffer`), so along every sequence of events starting from a state
whose queue has at most 2 entries — e.g. the empty queue `startBuffering`
installs — the queue never exceeds 2 entries. -/
theorem requestQueue_bounded :
    (∀ (s : TsRPC) (tp : ℕ) (v : Voxel),
       ¬ s.requestQueue.length < 2 → (streamToBuffer s tp v).2 = none) ∧
    (∀ s s' : TsRPC, Relation.ReflTransGen Step s s' →
       s.requestQueue.length ≤ 2 → s'.requestQueue.length ≤ 2) := by
  constructor
  · intro s tp v h
    unfold streamToBuffer
    rw [if_neg h]
  · intro s s' h
    induction h with
    | refl => exact id
    | tail _ hbc ih => intro h0; exact step_requestQueue_le _ _ hbc (ih h0)

/-- Witness for C2: one concrete tick from the empty queue keeps the bound. -/
theorem requestQueue_bounded_witness :
    (streamToBuffer exState 7 exVoxel).1.requestQueue.length ≤ 2 :=
  requestQueue_bounded.2 exState (streamToBuffer exState 7 exVoxel).1
    (Relation.ReflTransGen.single (Step.tick exState 7 exVoxel)) (by decide)

/-- Claim C3: whenever a tick issues a fetch, the fetched section is the
first scanned candidate, and it is neither resident in the segment cache nor
already in flight at the start of the tick — so a resident or in-flight index
is never fetched again by the scheduler. -/
theorem scheduler_no_duplicate_fetch (s : TsRPC) (tp : ℕ) (v : Voxel)
    (f : Fetch) (h : (streamToBuffer s tp v).2 = some f) :
    (schedulerCandidates s tp).find? (isNewSection s) = some f.sect ∧
    List.lookup f.sect s.bufferL2 = none ∧ f.sect ∉ s.requestQueue := by
  unfold streamToBuffer at h
  by_cases hlt : s.requestQueue.length < 2
  · rw [if_pos hlt] at h
    cases hfind : (schedulerCandidates s tp).find? (isNewSection s) with
    | none => rw [hfind] at h; exact absurd h (by simp)
    | some tb =>
        rw [hfind] at h
        have hnew := List.find?_some hfind
        simp only [isNewSection, Bool.and_eq_true, Bool.not_eq_true',
          Option.isNone_iff_eq_none] at hnew
        obtain ⟨h1, h2⟩ := hnew
        have h2' : tb ∉ s.requestQueue := by simpa using h2
        dsimp only at h
        unfold asyncRequest at h
        rw [if_neg (by simpa using h2')] at h
        dsimp only at h
        obtain rfl := Option.some.inj h
        exact ⟨rfl, h1, h2'⟩
  · rw [if_neg hlt] at h
    exact absurd h (by simp)

/-- Witness for C3: the concrete tick of `requestQueue_bounded_witness`
issues the fetch for section 2 — the first candidate — which is neither
resident nor in flight. -/
theorem scheduler_no_duplicate_fetch_witness :
    (schedulerCandidates exState 7).find? (isNewSection exState) = some 2 ∧
    List.lookup 2 exState.bufferL2 = none ∧ 2 ∉ exState.requestQueue :=
  scheduler_no_duplicate_fetch exState 7 exVoxel
    ⟨buildRequestUrl "" 10 15 exVoxel, 2, 1⟩ (by decide)

lemma le_growBufferSize (fuel tpSize b : ℕ) : b ≤ growBufferSize fuel tpSize b := by
  induction fuel generalizing b with
  | zero => exact le_refl b
  | succ n ih =>
      unfold growBufferSize
      split
      · exact le_trans (Nat.le_succ b) (ih (b + 1))
      · exact le_refl b

lemma growL2_eq_mul_pow (fuel btp L : ℕ) : ∃ m : ℕ, growL2 fuel btp L = L * 2 ^ m := by
  induction fuel generalizing L with
  | zero => exact ⟨0, by simp [growL2]⟩
  | succ n ih =>
      unfold growL2
      split
      · obtain ⟨m, hm⟩ := ih (L * 2)
        exact ⟨m + 1, by rw [hm]; ring⟩
      · exact ⟨0, by simp⟩

/-- Amended C9: `bufferSize` is always an integer ≥ 1, and `bufferL2Size` is
an integer ≥ 1 whenever one buffer fits the 157286400 memory bound
(`bufferSize * tpSize ≤ 157286400`, i.e. the doubling loop runs at least
once); for larger volumes the trailing halving leaves the non-integer `1/2`
(see the counterexample).  Neither field is recomputed by any later core
operation. -/
theorem buffer_sizes_after_init :
    (∀ e0 e1 e2 : ℕ,
       1 ≤ (_setupBuffersSize e0 e1 e2).1 ∧
       ((_setupBuffersSize e0 e1 e2).1 * tpSizeOf e0 e1 e2 ≤ 157286400 →
          ∃ n : ℕ, 1 ≤ n ∧ (_setupBuffersSize e0 e1 e2).2 = (n : ℚ))) ∧
    (∀ s s' : TsRPC, Step s s' →
       s'.bufferSize = s.bufferSize ∧ s'.bufferL2Size = s.bufferL2Size) := by
  constructor
  · intro e0 e1 e2
    refine ⟨le_growBufferSize 50001 (tpSizeOf e0 e1 e2) 1, ?_⟩
    intro hle
    have hfst : (_setupBuffersSize e0 e1 e2).1 =
        growBufferSize 50001 (tpSizeOf e0 e1 e2) 1 := rfl
    rw [hfst] at hle
    have h2 : (_setupBuffersSize e0 e1 e2).2 =
        ((growL2 40 (growBufferSize 50001 (tpSizeOf e0 e1 e2) 1 *
            tpSizeOf e0 e1 e2) 1 : ℕ) : ℚ) / 2 := rfl
    have hstep :
        growL2 40 (growBufferSize 50001 (tpSizeOf e0 e1 e2) 1 * tpSizeOf e0 e1 e2) 1 =
        growL2 39 (growBufferSize 50001 (tpSizeOf e0 e1 e2) 1 * tpSizeOf e0 e1 e2) 2 := by
      rw [show growL2 40 (growBufferSize 50001 (tpSizeOf e0 e1 e2) 1 * tpSizeOf e0 e1 e2) 1 =
            if growBufferSize 50001 (tpSizeOf e0 e1 e2) 1 * tpSizeOf e0 e1 e2 * 1 ≤ 157286400 then
              growL2 39 (growBufferSize 50001 (tpSizeOf e0 e1 e2) 1 * tpSizeOf e0 e1 e2) (1 * 2)
            else 1 from rfl,
          if_pos (by simpa using hle)]
    obtain ⟨m, hm⟩ := growL2_eq_mul_pow 39
      (growBufferSize 50001 (tpSizeOf e0 e1 e2) 1 * tpSizeOf e0 e1 e2) 2
    refine ⟨2 ^ m, Nat.one_le_two_pow, ?_⟩
    rw [h2, hstep, hm]
    push_cast
    ring
  · intro s s' h
    cases h with
    | tick tp v =>
        rcases streamToBuffer_fst_cases s tp v with h | ⟨_, sect, h⟩ <;>
          rw [h] <;> exact ⟨rfl, rfl⟩
    | success f json =>
        rcases completeSuccess_fst_cases f json s with h | h <;>
          rw [h] <;> exact ⟨rfl, rfl⟩
    | error f => exact ⟨rfl, rfl⟩
    | start =>
        rcases startBuffering_fst_cases s with h | h <;>
          rw [h] <;> exact ⟨rfl, rfl⟩
    | stop => exact ⟨rfl, rfl⟩
    | free tp =>
        exact ⟨(freeBuffer_requestQueue s tp).2.1, (freeBuffer_requestQueue s tp).2.2⟩
    | view t v g => rw [getViewAtTime_fst s t v g]; exact ⟨rfl, rfl⟩
    | background v g =>
        exact ⟨(getBackgroundView_fst_fields s v g).2.1,
               (getBackgroundView_fst_fields s v g).2.2⟩

/-- Witness for amended C9: volume dimensions `256³` give integer sizes ≥ 1,
and a concrete event (stopping the buffering) recomputes neither. -/
theorem buffer_sizes_after_init_witness :
    1 ≤ (_setupBuffersSize 256 256 256).1 ∧
    (∃ n : ℕ, 1 ≤ n ∧ (_setupBuffersSize 256 256 256).2 = (n : ℚ)) ∧
    ((TSRPC_stopBuffering exState).bufferSize = exState.bufferSize ∧
     (TSRPC_stopBuffering exState).bufferL2Size = exState.bufferL2Size) :=
  ⟨(buffer_sizes_after_init.1 256 256 256).1,
   (buffer_sizes_after_init.1 256 256 256).2 (by decide),
   buffer_sizes_after_init.2 exState (TSRPC_stopBuffering exState) (Step.stop exState)⟩

/-- Counterexample to C9 as stated: for volume dimensions `(12600, 1, 1)` a
single buffer already exceeds the 157286400 bound, the doubling loop never
runs, and the trailing float halving leaves `bufferL2Size = 1/2`, which is
neither an integer nor ≥ 1. -/
theorem buffer_sizes_counterexample :
    (_setupBuffersSize 12600 1 1).1 = 1 ∧
    (_setupBuffersSize 12600 1 1).2 = (1 : ℚ) / 2 ∧
    ¬ (∃ n : ℕ, 1 ≤ n ∧ (_setupBuffersSize 12600 1 1).2 = (n : ℚ)) := by
  have hL : growL2 40 (growBufferSize 50001 (tpSizeOf 12600 1 1) 1 *
      tpSizeOf 12600 1 1) 1 = 1 := by decide
  have h2 : (_setupBuffersSize 12600 1 1).2 = (1 : ℚ) / 2 := by
    have hr : (_setupBuffersSize 12600 1 1).2 =
        ((growL2 40 (growBufferSize 50001 (tpSizeOf 12600 1 1) 1 *
            tpSizeOf 12600 1 1) 1 : ℕ) : ℚ) / 2 := rfl
    rw [hr, hL]
    norm_num
  refine ⟨by decide, h2, ?_⟩
  rintro ⟨n, hn, hq⟩
  rw [h2] at hq
  have h1 : (1 : ℚ) = 2 * (n : ℚ) := by
    field_simp at hq
    linarith
  have h3 : (1 : ℕ) = 2 * n := by exact_mod_cast h1
  omega

/-! Arithmetic facts about the JavaScript remainder used by `freeBuffer`, and
a counting lemma for deduplicated key lists. -/

lemma jsTrunc_eq_zero {q : ℚ} (h1 : -1 < q) (h2 : q < 1) : jsTrunc q = 0 := by
  unfold jsTrunc
  split_ifs with h
  · have ha : ⌈q⌉ ≤ 0 := Int.ceil_le.2 (by exact_mod_cast le_of_lt h)
    have hb : -1 < ⌈q⌉ := Int.lt_ceil.2 (by exact_mod_cast h1)
    omega
  · have ha : 0 ≤ ⌊q⌋ := Int.floor_nonneg.2 (not_lt.1 h)
    have hb : ⌊q⌋ < 1 := Int.floor_lt.2 (by exact_mod_cast h2)
    omega

lemma jsRem_eq_self {x T : ℚ} (hT : 0 < T) (h1 : -T < x) (h2 : x < T) :
    jsRem x T = x := by
  have hA : -1 < x / T := by rw [lt_div_iff₀ hT]; linarith
  have hB : x / T < 1 := by rw [div_lt_one hT]; exact h2
  unfold jsRem
  rw [jsTrunc_eq_zero hA hB]
  push_cast
  ring

lemma jsRem_shift {x T : ℚ} (hT : 0 < T) (h1 : T ≤ x) (h2 : x < 2 * T) :
    jsRem x T = x - T := by
  have hA : 1 ≤ x / T := by rw [le_div_iff₀ hT]; linarith
  have hB : x / T < 2 := by rw [div_lt_iff₀ hT]; linarith
  have hq : jsTrunc (x / T) = 1 := by
    unfold jsTrunc
    rw [if_neg (by linarith : ¬ x / T < 0)]
    have hc : 1 ≤ ⌊x / T⌋ := Int.le_floor.2 (by exact_mod_cast hA)
    have hd : ⌊x / T⌋ < 2 := Int.floor_lt.2 (by exact_mod_cast hB)
    omega
  rw [jsRem, hq]
  push_cast
  ring

lemma jsTrunc_mono {a b : ℚ} (h : a ≤ b) : jsTrunc a ≤ jsTrunc b := by
  unfold jsTrunc
  split_ifs with h1 h2
  · exact Int.ceil_le_ceil h
  · have ha : ⌈a⌉ ≤ 0 := Int.ceil_le.2 (by exact_mod_cast le_of_lt h1)
    have hb : 0 ≤ ⌊b⌋ := Int.floor_nonneg.2 (not_lt.1 h2)
    omega
  · exact absurd (lt_of_le_of_lt h (by assumption)) h1
  · exact Int.floor_le_floor h

lemma jsRem_sub_le {lo hi T : ℚ} (hT : 0 < T) (h : lo ≤ hi) :
    jsRem hi T - jsRem lo T ≤ hi - lo := by
  have hdiv : lo / T ≤ hi / T := by gcongr
  have hmono := jsTrunc_mono hdiv
  have hcast : ((jsTrunc (lo / T) : ℤ) : ℚ) ≤ ((jsTrunc (hi / T) : ℤ) : ℚ) := by
    exact_mod_cast hmono
  have hmul := mul_le_mul_of_nonneg_left hcast (le_of_lt hT)
  unfold jsRem
  linarith

/-- The circular (modulo-`T`) distance between two section indices. -/
def circDist (idx sec T : ℤ) : ℤ :=
  min ((idx - sec).emod T) ((sec - idx).emod T)

lemma two_mul_circDist_le (idx sec T : ℤ) (hT : 1 ≤ T) :
    2 * circDist idx sec T ≤ T := by
  unfold circDist
  have hnd : sec - idx = -(idx - sec) := by ring
  rw [hnd]
  set d := idx - sec with hd
  have h0 : 0 ≤ d.emod T := Int.emod_nonneg d (by omega)
  have h1 : d.emod T < T := Int.emod_lt_of_pos d (by omega)
  have h0' : 0 ≤ (-d).emod T := Int.emod_nonneg _ (by omega)
  have h1' : (-d).emod T < T := Int.emod_lt_of_pos _ (by omega)
  have hsum : (d.emod T + (-d).emod T) % T = 0 := by
    have hz : (d + -d) % T = 0 := by simp
    rw [Int.add_emod] at hz
    exact hz
  have hdvd : T ∣ (d.emod T + (-d).emod T) := Int.dvd_of_emod_eq_zero hsum
  obtain ⟨c, hc⟩ := hdvd
  have hc0 : 0 ≤ c := by nlinarith
  have hc2 : c ≤ 1 := by nlinarith
  have hmin : 2 * min (d.emod T) ((-d).emod T) ≤ d.emod T + (-d).emod T := by
    rcases le_total (d.emod T) ((-d).emod T) with h | h
    · rw [min_eq_left h]; omega
    · rw [min_eq_right h]; omega
  have hTc : T * c ≤ T := by nlinarith
  omega

lemma dedup_length_le_of_mem_Icc (l : List ℕ) (lo hi : ℤ)
    (h : ∀ k ∈ l, lo ≤ (k : ℤ) ∧ (k : ℤ) ≤ hi) :
    l.dedup.length ≤ (hi + 1 - lo).toNat := by
  classical
  have hnd : l.dedup.Nodup := l.nodup_dedup
  have hinj : Function.Injective (fun n : ℕ => (n : ℤ)) := fun a b hab => by
    simpa using hab
  have hnd' : (l.dedup.map (fun n : ℕ => (n : ℤ))).Nodup := hnd.map hinj
  have hsub : (l.dedup.map (fun n : ℕ => (n : ℤ))).toFinset ⊆ Finset.Icc lo hi := by
    intro x hx
    rw [List.mem_toFinset, List.mem_map] at hx
    obtain ⟨n, hn, rfl⟩ := hx
    have hmem := h n (List.mem_dedup.1 hn)
    rw [Finset.mem_Icc]
    exact hmem
  have hcard := Finset.card_le_card hsub
  rw [List.toFinset_card_of_nodup hnd', List.length_map, Int.card_Icc] at hcard
  exact hcard

lemma mem_window_filter {l : List (ℕ × Segment)} {loQ hiQ : ℚ} {kv : ℕ × Segment}
    (h : kv ∈ l.filter
      (fun kv => !(decide ((kv.1 : ℚ) < loQ) || decide ((kv.1 : ℚ) > hiQ)))) :
    loQ ≤ (kv.1 : ℚ) ∧ (kv.1 : ℚ) ≤ hiQ := by
  have hp := List.of_mem_filter h
  simp only [Bool.not_eq_true', Bool.or_eq_false_iff, decide_eq_false_iff_not,
    not_lt, gt_iff_lt] at hp
  exact ⟨hp.1, hp.2⟩

lemma window_filter_count (l : List (ℕ × Segment)) (loQ hiQ : ℚ) :
    ((l.filter
        (fun kv => !(decide ((kv.1 : ℚ) < loQ) || decide ((kv.1 : ℚ) > hiQ)))).map
      Prod.fst).dedup.length ≤ (⌊hiQ⌋ + 1 - ⌈loQ⌉).toNat := by
  apply dedup_length_le_of_mem_Icc
  intro k hk
  obtain ⟨kv, hkv, rfl⟩ := List.mem_map.1 hk
  have h := mem_window_filter hkv
  constructor
  · exact Int.ceil_le.2 (by exact_mod_cast h.1)
  · exact Int.le_floor.2 (by exact_mod_cast h.2)

/-- Amended C5: one eviction run on a state with more resident segments than
`bufferL2Size` (an integer `L ≥ 1`) leaves at most `L + 1` resident segments
— not `L`: the retained window `[sec - L/2, sec + L/2]` spans `L + 1`
sections, and the counterexample shows `L + 1` is attained — and every
remaining segment index lies within `L / 2` sections, in circular distance
modulo `timeLength`, of the section containing the playback position. -/
theorem eviction_bound_amended (s : TsRPC) (tp : ℕ) (L : ℤ)
    (hL2 : s.bufferL2Size = (L : ℚ)) (hL1 : 1 ≤ L) (htp : tp < s.timeLength)
    (hcount : s.bufferL2Size < ((s.bufferL2.map Prod.fst).dedup.length : ℚ)) :
    (((freeBuffer s tp).bufferL2.map Prod.fst).dedup.length : ℤ) ≤ L + 1 ∧
    ∀ k ∈ (freeBuffer s tp).bufferL2.map Prod.fst,
      2 * circDist (k : ℤ) ((tp / s.bufferSize : ℕ) : ℤ) (s.timeLength : ℤ) ≤ L := by
  have hT1 : 1 ≤ s.timeLength := by omega
  have hT0 : (0 : ℚ) < (s.timeLength : ℚ) := by
    have h : 0 < s.timeLength := hT1
    exact_mod_cast h
  set sec := tp / s.bufferSize with hsecdef
  have hsecT : sec < s.timeLength :=
    lt_of_le_of_lt (Nat.div_le_self tp s.bufferSize) htp
  have hfree : (freeBuffer s tp).bufferL2 =
      s.bufferL2.filter (fun kv =>
        !(decide ((kv.1 : ℚ) <
            jsRem ((sec : ℚ) - (L : ℚ) / 2) (s.timeLength : ℚ)) ||
          decide ((kv.1 : ℚ) >
            jsRem ((sec : ℚ) + (L : ℚ) / 2) (s.timeLength : ℚ)))) := by
    unfold freeBuffer
    dsimp only
    rw [if_pos hcount, hL2, hsecdef]
  have hLQ : (0 : ℚ) ≤ (L : ℚ) := by exact_mod_cast (by omega : (0 : ℤ) ≤ L)
  have hwin :
      jsRem ((sec : ℚ) + (L : ℚ) / 2) (s.timeLength : ℚ) -
      jsRem ((sec : ℚ) - (L : ℚ) / 2) (s.timeLength : ℚ) ≤ (L : ℚ) := by
    have h0 : (sec : ℚ) - (L : ℚ) / 2 ≤ (sec : ℚ) + (L : ℚ) / 2 := by linarith
    have h := jsRem_sub_le hT0 h0
    linarith
  constructor
  · rw [hfree]
    have hc := window_filter_count s.bufferL2
      (jsRem ((sec : ℚ) - (L : ℚ) / 2) (s.timeLength : ℚ))
      (jsRem ((sec : ℚ) + (L : ℚ) / 2) (s.timeLength : ℚ))
    have hfl :
        ⌊jsRem ((sec : ℚ) + (L : ℚ) / 2) (s.timeLength : ℚ)⌋ -
        ⌈jsRem ((sec : ℚ) - (L : ℚ) / 2) (s.timeLength : ℚ)⌉ ≤ L := by
      have h1 := Int.floor_le (jsRem ((sec : ℚ) + (L : ℚ) / 2) (s.timeLength : ℚ))
      have h2 := Int.le_ceil (jsRem ((sec : ℚ) - (L : ℚ) / 2) (s.timeLength : ℚ))
      have h3 :
          ((⌊jsRem ((sec : ℚ) + (L : ℚ) / 2) (s.timeLength : ℚ)⌋ : ℤ) : ℚ) -
          ((⌈jsRem ((sec : ℚ) - (L : ℚ) / 2) (s.timeLength : ℚ)⌉ : ℤ) : ℚ) ≤
          (L : ℚ) := by linarith
      exact_mod_cast h3
    omega
  · intro k hk
    rw [hfree] at hk
    obtain ⟨kv, hkv, rfl⟩ := List.mem_map.1 hk
    have hkQ := mem_window_filter hkv
    rcases le_or_lt (s.timeLength : ℤ) L with hTL | hLT
    · exact le_trans (two_mul_circDist_le _ _ _ (by exact_mod_cast hT1)) hTL
    · have hLTQ : (L : ℚ) < (s.timeLength : ℚ) := by exact_mod_cast hLT
      have hsecQ : (sec : ℚ) < (s.timeLength : ℚ) := by exact_mod_cast hsecT
      have hsec0 : (0 : ℚ) ≤ (sec : ℚ) := Nat.cast_nonneg _
      have hL1Q : (1 : ℚ) ≤ (L : ℚ) := by exact_mod_cast hL1
      have hloEq :
          jsRem ((sec : ℚ) - (L : ℚ) / 2) (s.timeLength : ℚ) =
          (sec : ℚ) - (L : ℚ) / 2 := by
        apply jsRem_eq_self hT0 <;> linarith
      by_cases hwrap : (sec : ℚ) + (L : ℚ) / 2 < (s.timeLength : ℚ)
      · have hhiEq :
            jsRem ((sec : ℚ) + (L : ℚ) / 2) (s.timeLength : ℚ) =
            (sec : ℚ) + (L : ℚ) / 2 := by
          apply jsRem_eq_self hT0 <;> linarith
        have hda : 2 * ((kv.1 : ℤ) - (sec : ℤ)) ≤ L := by
          have hq : 2 * ((kv.1 : ℚ) - (sec : ℚ)) ≤ (L : ℚ) := by
            have h2 := hkQ.2
            rw [hhiEq] at h2
            linarith
          exact_mod_cast hq
        have hdb : -L ≤ 2 * ((kv.1 : ℤ) - (sec : ℤ)) := by
          have hq : (-L : ℚ) ≤ 2 * ((kv.1 : ℚ) - (sec : ℚ)) := by
            have h1 := hkQ.1
            rw [hloEq] at h1
            linarith
          exact_mod_cast hq
        unfold circDist
        rcases le_or_lt 0 ((kv.1 : ℤ) - (sec : ℤ)) with hd0 | hd0
        · have he : ((kv.1 : ℤ) - (sec : ℤ)).emod (s.timeLength : ℤ) =
              (kv.1 : ℤ) - (sec : ℤ) :=
            Int.emod_eq_of_lt hd0 (by omega)
          have hm := min_le_left
            (((kv.1 : ℤ) - (sec : ℤ)).emod (s.timeLength : ℤ))
            (((sec : ℤ) - (kv.1 : ℤ)).emod (s.timeLength : ℤ))
          omega
        · have he : ((sec : ℤ) - (kv.1 : ℤ)).emod (s.timeLength : ℤ) =
              (sec : ℤ) - (kv.1 : ℤ) :=
            Int.emod_eq_of_lt (by omega) (by omega)
          have hm := min_le_right
            (((kv.1 : ℤ) - (sec : ℤ)).emod (s.timeLength : ℤ))
            (((sec : ℤ) - (kv.1 : ℤ)).emod (s.timeLength : ℤ))
          omega
      · exfalso
        have hge : (s.timeLength : ℚ) ≤ (sec : ℚ) + (L : ℚ) / 2 := not_lt.1 hwrap
        have hhiEq :
            jsRem ((sec : ℚ) + (L : ℚ) / 2) (s.timeLength : ℚ) =
            (sec : ℚ) + (L : ℚ) / 2 - (s.timeLength : ℚ) := by
          apply jsRem_shift hT0 hge
          linarith
        have h1 := hkQ.1
        have h2 := hkQ.2
        rw [hloEq] at h1
        rw [hhiEq] at h2
        linarith

/-- The state of the C5 counterexample: `bufferL2Size = 2`, playback at time
point 10 (section 2 of 5-point segments), sections 1, 2, 3 resident. -/
def exStateFull : TsRPC :=
  { timeLength := 20
    bufferSize := 5
    bufferL2Size := 2
    lookAhead := 10
    bufferL2 := [(1, exSegment), (2, exSegment), (3, exSegment)]
    urlVolumeData := ""
    urlBackgroundVolumeData := "bg/"
    backgroundL2 := []
    requestQueue := []
    batchID := 1
    streamToBufferID := true }

/-- Counterexample to C5 as stated: on `exStateFull` (3 resident segments,
`bufferL2Size = 2`) the sweep retains the whole window `[1, 3]` of
`bufferL2Size + 1 = 3` sections, so after the run the resident count still
exceeds `bufferL2Size`. -/
theorem eviction_bound_counterexample :
    exStateFull.bufferL2Size < ((exStateFull.bufferL2.map Prod.fst).dedup.length : ℚ) ∧
    ¬ ((((freeBuffer exStateFull 10).bufferL2.map Prod.fst).dedup.length : ℚ) ≤
        exStateFull.bufferL2Size) := by
  have hc : (exStateFull.bufferL2.map Prod.fst).dedup.length = 3 := by decide
  have hlo :
      jsRem ((↑(10 / exStateFull.bufferSize) : ℚ) - exStateFull.bufferL2Size / 2)
        (exStateFull.timeLength : ℚ) = 1 := by
    show jsRem ((↑((10 : ℕ) / 5) : ℚ) - (2 : ℚ) / 2) ((20 : ℕ) : ℚ) = 1
    rw [show ((↑((10 : ℕ) / 5) : ℚ) - (2 : ℚ) / 2) = 1 by norm_num]
    rw [show ((20 : ℕ) : ℚ) = 20 by norm_num]
    exact jsRem_eq_self (by norm_num) (by norm_num) (by norm_num)
  have hhi :
      jsRem ((↑(10 / exStateFull.bufferSize) : ℚ) + exStateFull.bufferL2Size / 2)
        (exStateFull.timeLength : ℚ) = 3 := by
    show jsRem ((↑((10 : ℕ) / 5) : ℚ) + (2 : ℚ) / 2) ((20 : ℕ) : ℚ) = 3
    rw [show ((↑((10 : ℕ) / 5) : ℚ) + (2 : ℚ) / 2) = 3 by norm_num]
    rw [show ((20 : ℕ) : ℚ) = 20 by norm_num]
    exact jsRem_eq_self (by norm_num) (by norm_num) (by norm_num)
  have hfree : (freeBuffer exStateFull 10).bufferL2 = exStateFull.bufferL2 := by
    unfold freeBuffer
    dsimp only
    rw [if_pos (by rw [hc]; norm_num [exStateFull])]
    simp only [hlo, hhi]
    norm_num [exStateFull, List.filter]
  constructor
  · rw [hc]
    norm_num [exStateFull]
  · rw [hfree, hc]
    norm_num [exStateFull]

/-- Witness for amended C5: on the counterexample state the amended bounds
hold — at most 3 = `bufferL2Size + 1` survivors, all within one section of
playback section 2 modulo 20. -/
theorem eviction_bound_amended_witness :
    (((freeBuffer exStateFull 10).bufferL2.map Prod.fst).dedup.length : ℤ) ≤ 2 + 1 ∧
    ∀ k ∈ (freeBuffer exStateFull 10).bufferL2.map Prod.fst,
      2 * circDist (k : ℤ) ((10 / exStateFull.bufferSize : ℕ) : ℤ)
        (exStateFull.timeLength : ℤ) ≤ 2 := by
  have hc : (exStateFull.bufferL2.map Prod.fst).dedup.length = 3 := by decide
  exact eviction_bound_amended exStateFull 10 2 (by norm_num [exStateFull])
    (by norm_num) (by norm_num [exStateFull]) (by rw [hc]; norm_num [exStateFull])

end VolumeRPC
